import Mathlib

/-!
# ledsw: switch polling and LED glue

A shallow embedding of `src/src/ledsw.c`.

* C pointers are natural numbers, `0` being `NULL`.  The `app_data` objects live in a
  heap, a partial map from addresses to structure contents; reading through `NULL` or
  through an address that holds no object makes the call fault (`ret = none`).
* Every call of an external collaborator (`resource_*`, `sensor_data_*`, `ecore_timer_*`,
  `usleep`, `service_app_*`, `calloc`, `free`) is recorded, in program order, as an
  `Effect`; an effect of a call that returns a value carries that value, which is an
  input supplied by the environment.
* The logging macros of the absent `log.h` (`_D2`, `_E`) write diagnostics only and are
  not recorded; `retv_if(c, v)` and `ret_if(c)` are read as `if (c) return v;` and
  `if (c) return;`.
* `service_app_exit()` asks the main loop to quit and returns to its caller.
* Local variables that are assigned (`ret`, `sw_value`) are `let mut` variables of the
  `do` blocks, and `return` inside a block is the C `return`.
-/

namespace Ledsw

/-- C pointer value; `0` is `NULL`. -/
abbrev Ptr := Nat

/-- The null pointer. -/
def NULL : Ptr := 0

/-- The structure `app_data_s` (lines 43-47): the timer handle and the sensor-data handle. -/
structure app_data where
  getter_sw : Ptr
  sw_data : Ptr
deriving DecidableEq, Repr

/-- Functions of this file that are handed to the host as callbacks. -/
inductive Callback where
  | __sw_to_value
  | service_app_create
  | service_app_terminate
  | service_app_control
deriving DecidableEq, Repr

/-- The functions declared in `src/inc/st_things.h`. -/
inductive StThingsApi where
  | st_things_set_configuration_prefix_path
  | st_things_initialize
  | st_things_deinitialize
  | st_things_register_request_cb
  | st_things_start
  | st_things_stop
  | st_things_register_reset_cb
  | st_things_reset
  | st_things_register_pin_handling_cb
  | st_things_register_user_confirm_cb
  | st_things_register_things_status_change_cb
  | st_things_notify_observers
  | st_things_create_representation_inst
  | st_things_destroy_representation_inst
deriving DecidableEq, Repr

/-- One call of an external collaborator.  `ret`, `out`, `result` are what the call gave back. -/
inductive Effect where
  | resource_write_led (pin : Int) (value : Int)
  | resource_read_sw_sensor (pin : Int) (ret : Int) (out : Nat)
  | usleep (usec : Nat)
  | service_app_exit
  | ecore_timer_del (timer : Ptr)
  | ecore_timer_add (interval : ℚ) (func : Callback) (data : Ptr) (result : Ptr)
  | sensor_data_new (type : Int) (result : Ptr)
  | sensor_data_free (p : Ptr)
  | resource_close_all
  | free (p : Ptr)
  | calloc (nmemb : Nat) (size : Nat) (result : Ptr)
  | service_app_main
  | st_things (fn : StThingsApi)
deriving DecidableEq

/-- The heap of `app_data` objects. -/
abbrev Heap := Ptr → Option app_data

/-- What a call did: its return value (`none` when it faults on an invalid dereference),
the heap it leaves and the effects it performed, in order. -/
structure Call (α : Type) where
  ret : Option α
  heap : Heap
  trace : List Effect

/-- A C function body: from the heap at entry to what the call did. -/
structure Prog (α : Type) where
  run : Heap → Call α

/-- Return a value, doing nothing. -/
def Prog.pure {α : Type} (a : α) : Prog α := ⟨fun h => ⟨some a, h, []⟩⟩

/-- Sequencing: a fault in the first part ends the call. -/
def Prog.bind {α β : Type} (m : Prog α) (f : α → Prog β) : Prog β := ⟨fun h =>
  match (m.run h).ret with
  | none => ⟨none, (m.run h).heap, (m.run h).trace⟩
  | some a =>
    ⟨((f a).run (m.run h).heap).ret, ((f a).run (m.run h).heap).heap,
      (m.run h).trace ++ ((f a).run (m.run h).heap).trace⟩⟩

instance : Monad Prog where
  pure := Prog.pure
  bind := Prog.bind

/-- Record one external call. -/
def emit (e : Effect) : Prog Unit := ⟨fun h => ⟨some (), h, [e]⟩⟩

/-- Read the structure behind a pointer (`*p`); faults on `NULL` and on a dangling pointer. -/
def deref (p : Ptr) : Prog app_data := ⟨fun h =>
  if p = NULL then ⟨none, h, []⟩
  else match h p with
    | none => ⟨none, h, []⟩
    | some ad => ⟨some ad, h, []⟩⟩

/-- Write the structure behind a pointer; faults on `NULL` and on a dangling pointer. -/
def assign (p : Ptr) (v : app_data) : Prog Unit := ⟨fun h =>
  if p = NULL then ⟨none, h, []⟩
  else match h p with
    | none => ⟨none, h, []⟩
    | some _ => ⟨some (), fun q => if q = p then some v else h q, []⟩⟩

/-- The object behind a pointer stops existing (the memory side of `free`). -/
def release (p : Ptr) : Prog Unit := ⟨fun h =>
  ⟨some (), fun q => if q = p then none else h q, []⟩⟩

/-- The type `Eina_Bool` of Eina. -/
abbrev Eina_Bool := Nat

/-- The constant `ECORE_CALLBACK_CANCEL` of Ecore, which is `EINA_FALSE`. -/
def ECORE_CALLBACK_CANCEL : Eina_Bool := 0

/-- The constant `ECORE_CALLBACK_RENEW` of Ecore, which is `EINA_TRUE`. -/
def ECORE_CALLBACK_RENEW : Eina_Bool := 1

/-- Line 40: `#define SENSOR_GATHER_INTERVAL (1.0f)`, in seconds. -/
def SENSOR_GATHER_INTERVAL : ℚ := 1

/-- Line 55, the local of `__get_sw`: `unsigned int delay_usec = 200000; // 20mS delay`. -/
def __get_sw.delay_usec : Nat := 200000

/-- Lines 80-102, the `if (sw_value) ... else ...` statement of `__get_sw`. -/
def __get_sw.led_writes (sw_value : Nat) : Prog Unit :=
  if sw_value ≠ 0 then do
    emit (.resource_write_led 5 1)
    emit (.resource_write_led 26 1)
  else do
    emit (.resource_write_led 5 0)
    emit (.usleep __get_sw.delay_usec)
    emit (.resource_write_led 5 1)
    emit (.usleep __get_sw.delay_usec)
    emit (.resource_write_led 26 0)
    emit (.usleep __get_sw.delay_usec)
    emit (.resource_write_led 26 1)
    emit (.usleep __get_sw.delay_usec)

/-- Lines 51-104.  `read` is what `resource_read_sw_sensor(20, &sw_value)` gives back: its
return value and the number it stores.  It stores through `&sw_value`, the address of the
parameter itself, so the number lands in the parameter, which line 79 then overwrites
with `1` before the test of line 80; the caller's variable is never written. -/
def __get_sw (data : Ptr) (sw_value : Ptr) (read : Int × Nat) : Prog Int := do
  let mut sw_value : Nat := sw_value
  let mut ret : Int := 0
  if data = NULL then return -1
  let ad ← deref data
  if ad.sw_data = NULL then return -1
  emit (.resource_read_sw_sensor 20 read.1 read.2)
  ret := read.1
  sw_value := read.2
  if ret ≠ 0 then return -1
  sw_value := 1
  __get_sw.led_writes sw_value
  return 0

/-- The address `&sw_value` of the local of `__sw_to_value` (line 109): a non-null stack
address.  Stack memory is not part of the heap of the model and `__get_sw` never reads
through its second argument, so one fixed value stands for it. -/
def __sw_to_value.sw_value_addr : Ptr := 1

/-- Lines 106-128, the timer callback.  `service_app_exit()` asks the main loop to quit and
returns, so the body goes on after it. -/
def __sw_to_value (data : Ptr) (read : Int × Nat) : Prog Eina_Bool := do
  let mut ret : Int := 0
  let value : Int := 1
  emit (.resource_write_led 26 value)
  if data = NULL then
    emit .service_app_exit
  let ad ← deref data
  if ad.sw_data = NULL then
    emit .service_app_exit
  ret ← __get_sw data __sw_to_value.sw_value_addr read
  if ret ≠ 0 then return ECORE_CALLBACK_RENEW
  return ECORE_CALLBACK_RENEW

/-- Lines 130-138. -/
def gathering_stop (data : Ptr) : Prog Unit := do
  if data = NULL then return
  let ad ← deref data
  if ad.getter_sw ≠ NULL then
    emit (.ecore_timer_del ad.getter_sw)

/-- Lines 140-151.  `timer` is what `ecore_timer_add` gives back. -/
def gathering_start (data : Ptr) (timer : Ptr) : Prog Unit := do
  if data = NULL then return
  gathering_stop data
  emit (.ecore_timer_add SENSOR_GATHER_INTERVAL .__sw_to_value data timer)
  let ad ← deref data
  assign data { ad with getter_sw := timer }

/-- Lines 154-167.  `SENSOR_DATA_TYPE_UINT` (of the absent `sensor-data.h`) and `delay_usec`
(no declaration of it is in scope at line 163) are taken as parameters; `sensor` is what
`sensor_data_new` gives back. -/
def service_app_create (SENSOR_DATA_TYPE_UINT : Int) (delay_usec : Nat) (user_data : Ptr)
    (sensor : Ptr) : Prog Bool := do
  emit (.sensor_data_new SENSOR_DATA_TYPE_UINT sensor)
  let ad ← deref user_data
  assign user_data { ad with sw_data := sensor }
  if sensor = NULL then return false
  emit (.resource_write_led 5 1)
  emit (.usleep delay_usec)
  emit (.resource_write_led 5 0)
  return true

/-- Lines 169-174. -/
def service_app_control (user_data : Ptr) (timer : Ptr) : Prog Unit :=
  gathering_start user_data timer

/-- Lines 176-189. -/
def service_app_terminate (user_data : Ptr) : Prog Unit := do
  emit (.resource_write_led 5 0)
  emit .resource_close_all
  gathering_stop user_data
  let ad ← deref user_data
  emit (.sensor_data_free ad.sw_data)
  emit (.free user_data)
  release user_data

/-- The memory side of a successful `calloc`: a new zero-filled object at `p`. -/
def alloc_zeroed (p : Ptr) : Prog Unit := ⟨fun h =>
  ⟨some (), fun q => if q = p then some ⟨0, 0⟩ else h q, []⟩⟩

/-- One invocation, by the host, of a callback of this file, with what the environment
gives back during it. -/
inductive HostCall where
  | create (sensor : Ptr)
  | app_control (timer : Ptr)
  | timer_tick (read : Int × Nat)
  | terminate
deriving DecidableEq

/-- The host invokes one callback on the application data `ad`: a lifecycle callback
registered in `main` (lines 201-203), or the timer callback, whose argument
`gathering_start` registered as `ad` (line 148). -/
def host_call (SENSOR_DATA_TYPE_UINT : Int) (delay_usec : Nat) (ad : Ptr) :
    HostCall → Prog Unit
  | .create sensor => do
    let _ ← service_app_create SENSOR_DATA_TYPE_UINT delay_usec ad sensor
    pure ()
  | .app_control timer => service_app_control ad timer
  | .timer_tick read => do
    let _ ← __sw_to_value ad read
    pure ()
  | .terminate => service_app_terminate ad

/-- The host, `service_app_main` of the Tizen application framework, is not part of the
program; its behaviour is a parameter: the list of callback invocations it makes, in
order, and the value `status` it returns.  A faulting callback ends the run. -/
def service_app_main (SENSOR_DATA_TYPE_UINT : Int) (delay_usec : Nat) (ad : Ptr)
    (status : Int) : List HostCall → Prog Int
  | [] => pure status
  | c :: cs => do
    host_call SENSOR_DATA_TYPE_UINT delay_usec ad c
    service_app_main SENSOR_DATA_TYPE_UINT delay_usec ad status cs

/-- Lines 191-206.  `sizeof_app_data` is `sizeof(app_data)`, `ad` is what `calloc` gives
back; `g_ad` (line 199) is written and never read, so it is not kept. -/
def main (SENSOR_DATA_TYPE_UINT : Int) (delay_usec : Nat) (sizeof_app_data : Nat)
    (ad : Ptr) (status : Int) (host : List HostCall) : Prog Int := do
  emit (.calloc 1 sizeof_app_data ad)
  if ad = NULL then return -1
  alloc_zeroed ad
  emit .service_app_main
  service_app_main SENSOR_DATA_TYPE_UINT delay_usec ad status host

/-- A run of `gathering_start` calls on the same application data, one for each item of
`timers`, the item being what that call's `ecore_timer_add` gives back. -/
def gathering_start_all (data : Ptr) : List Ptr → Prog Unit
  | [] => pure ()
  | timer :: timers => do
    gathering_start data timer
    gathering_start_all data timers

/-- The LED writes of a trace, in order, as (pin, value). -/
def led_writes : List Effect → List (Int × Int)
  | [] => []
  | .resource_write_led pin value :: es => (pin, value) :: led_writes es
  | _ :: es => led_writes es

/-- The level last written to a pin in a trace, if any. -/
def led_level (pin : Int) (t : List Effect) : Option Int :=
  ((led_writes t).filter (fun w => w.1 = pin)).getLast?.map Prod.snd

/-- The sensor reads of a trace, in order: the pins read. -/
def sensor_reads : List Effect → List Int
  | [] => []
  | .resource_read_sw_sensor pin _ _ :: es => pin :: sensor_reads es
  | _ :: es => sensor_reads es

/-- The handles passed to `ecore_timer_del` in a trace, in order. -/
def timer_dels : List Effect → List Ptr
  | [] => []
  | .ecore_timer_del timer :: es => timer :: timer_dels es
  | _ :: es => timer_dels es

/-- The timers a trace creates: the non-null handles `ecore_timer_add` gave back, in order. -/
def timer_adds : List Effect → List Ptr
  | [] => []
  | .ecore_timer_add _ _ _ result :: es =>
    if result = NULL then timer_adds es else result :: timer_adds es
  | _ :: es => timer_adds es

/-- One effect's action on the live timers: a successful `ecore_timer_add` makes its
timer live, `ecore_timer_del` ends the timer it is given. -/
def live_step (live : List Ptr) : Effect → List Ptr
  | .ecore_timer_add _ _ _ result => if result = NULL then live else live ++ [result]
  | .ecore_timer_del timer => live.filter (fun t => t ≠ timer)
  | _ => live

/-- The timers that are live after a trace that starts with none. -/
def live_timers (t : List Effect) : List Ptr := t.foldl live_step []

/-- Whether an effect is a call of a function of `st_things.h`. -/
def is_st_things : Effect → Bool
  | .st_things _ => true
  | _ => false

/-- The trace of a run of `gathering_start` calls in closed form: `g` is `getter_sw` at
entry, each call deletes the handle it finds, if any, and adds a timer. -/
def gathering_start_all_trace (data : Ptr) (g : Ptr) : List Ptr → List Effect
  | [] => []
  | timer :: timers =>
    (if g ≠ NULL then [.ecore_timer_del g] else []) ++
      .ecore_timer_add SENSOR_GATHER_INTERVAL .__sw_to_value data timer ::
        gathering_start_all_trace data timer timers

/-- The live timers when `getter_sw` is `g` and is the only handle that may be live. -/
def live_of (g : Ptr) : List Ptr := if g = NULL then [] else [g]

/-- No effect of any call of the body, on any heap, is a call of `st_things.h`. -/
def Quiet {α : Type} (m : Prog α) : Prop :=
  ∀ h : Heap, ∀ e ∈ (m.run h).trace, is_st_things e = false

/-- A heap with one `app_data` object, at address 100, its timer handle `NULL` and its
sensor-data handle 7. -/
def heap0 : Heap := fun p => if p = 100 then some ⟨0, 7⟩ else none

/-- The empty heap. -/
def heap_empty : Heap := fun _ => none

/-! ## Running a body -/

@[simp] theorem run_pure {α : Type} (a : α) (h : Heap) :
    (pure a : Prog α).run h = ⟨some a, h, []⟩ := rfl

@[simp] theorem run_bind {α β : Type} (m : Prog α) (f : α → Prog β) (h : Heap) :
    (m >>= f).run h =
      match (m.run h).ret with
      | none => ⟨none, (m.run h).heap, (m.run h).trace⟩
      | some a =>
        ⟨((f a).run (m.run h).heap).ret, ((f a).run (m.run h).heap).heap,
          (m.run h).trace ++ ((f a).run (m.run h).heap).trace⟩ := rfl

@[simp] theorem run_emit (e : Effect) (h : Heap) : (emit e).run h = ⟨some (), h, [e]⟩ := rfl

@[simp] theorem run_ite {α : Type} (c : Prop) [Decidable c] (m₁ m₂ : Prog α) (h : Heap) :
    (if c then m₁ else m₂).run h = if c then m₁.run h else m₂.run h := by
  split <;> rfl

theorem run_deref {p : Ptr} {h : Heap} {ad : app_data} (hp : p ≠ NULL) (hh : h p = some ad) :
    (deref p).run h = ⟨some ad, h, []⟩ := by
  simp [deref, hp, hh]

@[simp] theorem run_deref_null (h : Heap) : (deref NULL).run h = ⟨none, h, []⟩ := by
  simp [deref]

theorem run_assign {p : Ptr} {h : Heap} {ad : app_data} (v : app_data) (hp : p ≠ NULL)
    (hh : h p = some ad) :
    (assign p v).run h = ⟨some (), fun q => if q = p then some v else h q, []⟩ := by
  simp [assign, hp, hh]

@[simp] theorem run_release (p : Ptr) (h : Heap) :
    (release p).run h = ⟨some (), fun q => if q = p then none else h q, []⟩ := rfl

@[simp] theorem run_alloc_zeroed (p : Ptr) (h : Heap) :
    (alloc_zeroed p).run h = ⟨some (), fun q => if q = p then some ⟨0, 0⟩ else h q, []⟩ := rfl

/-! ## The timer tick -/

/-- The function `__get_sw` never uses the pointer it is given as second argument. -/
theorem get_sw_ignores_pointer (data p q : Ptr) (read : Int × Nat) :
    __get_sw data p read = __get_sw data q read := by
  simp [__get_sw]

/-- C2: a tick with non-null app data, non-null `sw_data` and a successful sensor read
returns and has the effect trace write_led(26,1), read_sw_sensor(20), write_led(5,1),
write_led(26,1): one sensor read, on pin 20, and LED writes to pins 5 and 26 only. -/
theorem sw_to_value_success_trace (h : Heap) (data : Ptr) (ad : app_data) (out : Nat)
    (hd : data ≠ NULL) (hh : h data = some ad) (hs : ad.sw_data ≠ NULL) :
    ((__sw_to_value data (0, out)).run h).trace =
        [.resource_write_led 26 1, .resource_read_sw_sensor 20 0 out,
         .resource_write_led 5 1, .resource_write_led 26 1] ∧
      ((__sw_to_value data (0, out)).run h).ret.isSome = true ∧
      sensor_reads ((__sw_to_value data (0, out)).run h).trace = [20] ∧
      ∀ w ∈ led_writes ((__sw_to_value data (0, out)).run h).trace, w.1 = 5 ∨ w.1 = 26 := by
  simp [__sw_to_value, __get_sw, __get_sw.led_writes, run_deref hd hh, hd, hs, sensor_reads,
    led_writes]

/-- Witness of C2 on the heap `heap0`, reading 0. -/
theorem sw_to_value_success_trace_witness :
    ((__sw_to_value 100 (0, 0)).run heap0).trace =
        [.resource_write_led 26 1, .resource_read_sw_sensor 20 0 0,
         .resource_write_led 5 1, .resource_write_led 26 1] ∧
      ((__sw_to_value 100 (0, 0)).run heap0).ret.isSome = true ∧
      sensor_reads ((__sw_to_value 100 (0, 0)).run heap0).trace = [20] ∧
      ∀ w ∈ led_writes ((__sw_to_value 100 (0, 0)).run heap0).trace, w.1 = 5 ∨ w.1 = 26 :=
  sw_to_value_success_trace heap0 100 ⟨0, 7⟩ 0 (by decide) (by decide) (by decide)

/-- On every heap, for every pointer and every result of the sensor read, the timer
callback does not return `ECORE_CALLBACK_CANCEL`. -/
theorem sw_to_value_never_cancels (h : Heap) (data : Ptr) (read : Int × Nat) :
    ((__sw_to_value data read).run h).ret ≠ some ECORE_CALLBACK_CANCEL := by
  by_cases hd : data = NULL
  · simp [__sw_to_value, hd]
  · cases hh : h data with
    | none => simp [__sw_to_value, __get_sw, deref, hd, hh]
    | some ad =>
      by_cases hs : ad.sw_data = NULL <;> by_cases hr : read.1 = 0 <;>
        simp [__sw_to_value, __get_sw, __get_sw.led_writes, run_deref hd hh, hd, hs, hr,
          ECORE_CALLBACK_RENEW, ECORE_CALLBACK_CANCEL]

/-- C3: for app data whose `sw_data` is non-null, whatever the sensor read gives back, the
timer callback returns `ECORE_CALLBACK_RENEW`, which is not `ECORE_CALLBACK_CANCEL`; and
on no heap, pointer and read result at all does it return `ECORE_CALLBACK_CANCEL`. -/
theorem sw_to_value_renews (h : Heap) (data : Ptr) (ad : app_data) (read : Int × Nat)
    (hd : data ≠ NULL) (hh : h data = some ad) (hs : ad.sw_data ≠ NULL) :
    ((__sw_to_value data read).run h).ret = some ECORE_CALLBACK_RENEW ∧
      ECORE_CALLBACK_RENEW ≠ ECORE_CALLBACK_CANCEL ∧
      ∀ (h' : Heap) (data' : Ptr) (read' : Int × Nat),
        ((__sw_to_value data' read').run h').ret ≠ some ECORE_CALLBACK_CANCEL := by
  refine ⟨?_, by decide, sw_to_value_never_cancels⟩
  by_cases hr : read.1 = 0 <;>
    simp [__sw_to_value, __get_sw, __get_sw.led_writes, run_deref hd hh, hd, hs, hr]

/-- Witness of C3 on the heap `heap0`, with a failing read. -/
theorem sw_to_value_renews_witness :
    ((__sw_to_value 100 (-1, 0)).run heap0).ret = some ECORE_CALLBACK_RENEW ∧
      ECORE_CALLBACK_RENEW ≠ ECORE_CALLBACK_CANCEL ∧
      ∀ (h' : Heap) (data' : Ptr) (read' : Int × Nat),
        ((__sw_to_value data' read').run h').ret ≠ some ECORE_CALLBACK_CANCEL :=
  sw_to_value_renews heap0 100 ⟨0, 7⟩ (-1, 0) (by decide) (by decide) (by decide)

/-- C5: when the sensor read gives back a non-zero value, `__get_sw` returns -1 after its
one read and writes no LED, the tick's whole trace is write_led(26,1), read_sw_sensor(20),
and the heap, hence the app data, is as before. -/
theorem failed_read_no_retry (h : Heap) (data p : Ptr) (ad : app_data) (ret : Int) (out : Nat)
    (hd : data ≠ NULL) (hh : h data = some ad) (hs : ad.sw_data ≠ NULL) (hr : ret ≠ 0) :
    ((__get_sw data p (ret, out)).run h).ret = some (-1) ∧
      ((__get_sw data p (ret, out)).run h).trace = [.resource_read_sw_sensor 20 ret out] ∧
      led_writes ((__get_sw data p (ret, out)).run h).trace = [] ∧
      ((__sw_to_value data (ret, out)).run h).trace =
        [.resource_write_led 26 1, .resource_read_sw_sensor 20 ret out] ∧
      ((__sw_to_value data (ret, out)).run h).heap = h ∧
      ((__sw_to_value data (ret, out)).run h).heap data = some ad := by
  simp [__sw_to_value, __get_sw, __get_sw.led_writes, run_deref hd hh, hd, hs, hr, hh,
    led_writes]

/-- Witness of C5 on the heap `heap0`, the read giving back -1. -/
theorem failed_read_no_retry_witness :
    ((__get_sw 100 1 (-1, 0)).run heap0).ret = some (-1) ∧
      ((__get_sw 100 1 (-1, 0)).run heap0).trace = [.resource_read_sw_sensor 20 (-1) 0] ∧
      led_writes ((__get_sw 100 1 (-1, 0)).run heap0).trace = [] ∧
      ((__sw_to_value 100 (-1, 0)).run heap0).trace =
        [.resource_write_led 26 1, .resource_read_sw_sensor 20 (-1) 0] ∧
      ((__sw_to_value 100 (-1, 0)).run heap0).heap = heap0 ∧
      ((__sw_to_value 100 (-1, 0)).run heap0).heap 100 = some ⟨0, 7⟩ :=
  failed_read_no_retry heap0 100 1 ⟨0, 7⟩ (-1) 0 (by decide) (by decide) (by decide)
    (by decide)

/-- C1, the code at a zero reading: with app data and sensor-data handle present and the
read succeeding with value 0, `__get_sw` writes LED5:=1, LED26:=1 and not the blink
sequence, and the ticks for the readings 0 and 1 have the same LED writes. -/
theorem get_sw_zero_reading :
    ((__get_sw 100 1 (0, 0)).run heap0).ret = some 0 ∧
      led_writes ((__get_sw 100 1 (0, 0)).run heap0).trace = [(5, 1), (26, 1)] ∧
      led_writes ((__get_sw 100 1 (0, 0)).run heap0).trace ≠
        [(5, 0), (5, 1), (26, 0), (26, 1)] ∧
      led_writes ((__sw_to_value 100 (0, 0)).run heap0).trace =
        led_writes ((__sw_to_value 100 (0, 1)).run heap0).trace := by
  decide

/-- C8, the code: the delay of `__get_sw` is 200000 microseconds, which is 200 and not 20
milliseconds, and it is the value each `usleep` of the blink branch is given. -/
theorem get_sw_delay_value :
    __get_sw.delay_usec = 200000 ∧ __get_sw.delay_usec = 200 * 1000 ∧
      __get_sw.delay_usec ≠ 20 * 1000 ∧
      ((__get_sw.led_writes 0).run heap0).trace =
        [.resource_write_led 5 0, .usleep 200000, .resource_write_led 5 1, .usleep 200000,
         .resource_write_led 26 0, .usleep 200000, .resource_write_led 26 1,
         .usleep 200000] := by
  decide

/-! ## Starting and stopping the timer -/

/-- What `gathering_stop` does on app data that is there: one `ecore_timer_del`, of
`getter_sw`, when `getter_sw` is non-null, and nothing otherwise; the heap is untouched. -/
theorem run_gathering_stop {data : Ptr} {h : Heap} {ad : app_data} (hd : data ≠ NULL)
    (hh : h data = some ad) :
    (gathering_stop data).run h =
      ⟨some (), h, if ad.getter_sw ≠ NULL then [.ecore_timer_del ad.getter_sw] else []⟩ := by
  by_cases hg : ad.getter_sw = NULL <;> simp [gathering_stop, run_deref hd hh, hd, hg]

/-- What `gathering_start` does on app data that is there. -/
theorem run_gathering_start {data : Ptr} {h : Heap} {ad : app_data} (timer : Ptr)
    (hd : data ≠ NULL) (hh : h data = some ad) :
    (gathering_start data timer).run h =
      ⟨some (), fun q => if q = data then some ⟨timer, ad.sw_data⟩ else h q,
        (if ad.getter_sw ≠ NULL then [.ecore_timer_del ad.getter_sw] else []) ++
          [.ecore_timer_add SENSOR_GATHER_INTERVAL .__sw_to_value data timer]⟩ := by
  simp [gathering_start, run_gathering_stop hd hh, run_deref hd hh, run_assign _ hd hh, hd]

/-- C4: on non-null app data `gathering_start` returns, makes one `ecore_timer_add` call,
with interval `SENSOR_GATHER_INTERVAL`, which is 1 second, callback `__sw_to_value` and
the app data as argument, after the `ecore_timer_del` of `gathering_stop` if any, and
stores what the call gave back, `NULL` included, in `getter_sw`, leaving `sw_data`; on
null app data it returns with no effect and the heap as it was. -/
theorem gathering_start_timer (h : Heap) (data : Ptr) (ad : app_data) (timer : Ptr)
    (hd : data ≠ NULL) (hh : h data = some ad) :
    ((gathering_start data timer).run h).ret = some () ∧
      ((gathering_start data timer).run h).trace =
        (if ad.getter_sw ≠ NULL then [.ecore_timer_del ad.getter_sw] else []) ++
          [.ecore_timer_add 1 .__sw_to_value data timer] ∧
      SENSOR_GATHER_INTERVAL = 1 ∧
      ((gathering_start data timer).run h).heap data = some ⟨timer, ad.sw_data⟩ ∧
      ((gathering_start NULL timer).run h).ret = some () ∧
      ((gathering_start NULL timer).run h).trace = [] ∧
      ((gathering_start NULL timer).run h).heap = h := by
  refine ⟨?_, ?_, rfl, ?_, ?_, ?_, ?_⟩
  · simp [run_gathering_start timer hd hh]
  · simp [run_gathering_start timer hd hh, SENSOR_GATHER_INTERVAL]
  · simp [run_gathering_start timer hd hh]
  · simp [gathering_start]
  · simp [gathering_start]
  · simp [gathering_start]

/-- Witness of C4 on the heap `heap0`, `ecore_timer_add` giving back the handle 9. -/
theorem gathering_start_timer_witness :
    ((gathering_start 100 9).run heap0).ret = some () ∧
      ((gathering_start 100 9).run heap0).trace =
        (if (⟨0, 7⟩ : app_data).getter_sw ≠ NULL then
            [.ecore_timer_del (⟨0, 7⟩ : app_data).getter_sw] else []) ++
          [.ecore_timer_add 1 .__sw_to_value 100 9] ∧
      SENSOR_GATHER_INTERVAL = 1 ∧
      ((gathering_start 100 9).run heap0).heap 100 = some ⟨9, (⟨0, 7⟩ : app_data).sw_data⟩ ∧
      ((gathering_start NULL 9).run heap0).ret = some () ∧
      ((gathering_start NULL 9).run heap0).trace = [] ∧
      ((gathering_start NULL 9).run heap0).heap = heap0 :=
  gathering_start_timer heap0 100 ⟨0, 7⟩ 9 (by decide) (by decide)

/-! ## The lifecycle callbacks -/

/-- C6: on non-null app data `service_app_terminate` returns and its trace is
write_led(5,0), resource_close_all(), ecore_timer_del(getter_sw) exactly when `getter_sw`
is non-null, sensor_data_free(sw_data), free(ad): each once, in this order, nothing
else. -/
theorem service_app_terminate_trace (h : Heap) (user_data : Ptr) (ad : app_data)
    (hd : user_data ≠ NULL) (hh : h user_data = some ad) :
    ((service_app_terminate user_data).run h).ret = some () ∧
      ((service_app_terminate user_data).run h).trace =
        [.resource_write_led 5 0, .resource_close_all] ++
          (if ad.getter_sw ≠ NULL then [.ecore_timer_del ad.getter_sw] else []) ++
          [.sensor_data_free ad.sw_data, .free user_data] := by
  simp [service_app_terminate, run_gathering_stop hd hh, run_deref hd hh]

/-- Witness of C6 on a heap whose app data holds the timer handle 9. -/
theorem service_app_terminate_trace_witness :
    ((service_app_terminate 100).run (fun p => if p = 100 then some ⟨9, 7⟩ else none)).ret =
        some () ∧
      ((service_app_terminate 100).run (fun p => if p = 100 then some ⟨9, 7⟩ else none)).trace =
        [.resource_write_led 5 0, .resource_close_all] ++
          (if (⟨9, 7⟩ : app_data).getter_sw ≠ NULL then
            [.ecore_timer_del (⟨9, 7⟩ : app_data).getter_sw] else []) ++
          [.sensor_data_free (⟨9, 7⟩ : app_data).sw_data, .free 100] :=
  service_app_terminate_trace (fun p => if p = 100 then some ⟨9, 7⟩ else none) 100 ⟨9, 7⟩
    (by decide) (by decide)

/-- C9: on app data that is there, `service_app_create` returns, and returns false
exactly when `sensor_data_new` gave back `NULL`; then its trace is that one call, with no
LED write; otherwise it returns true, `sw_data` holds the handle, `getter_sw` is as
before, and after `sensor_data_new` the trace is LED5:=1, usleep, LED5:=0, so that the
level last written to LED 5 is 0. -/
theorem service_app_create_result (T : Int) (delay_usec : Nat) (h : Heap) (user_data : Ptr)
    (ad : app_data) (sensor : Ptr) (hd : user_data ≠ NULL) (hh : h user_data = some ad) :
    ((service_app_create T delay_usec user_data sensor).run h).ret.isSome = true ∧
      (((service_app_create T delay_usec user_data sensor).run h).ret = some false ↔
        sensor = NULL) ∧
      (sensor = NULL →
        ((service_app_create T delay_usec user_data sensor).run h).trace =
            [.sensor_data_new T NULL] ∧
          led_writes ((service_app_create T delay_usec user_data sensor).run h).trace = []) ∧
      (sensor ≠ NULL →
        ((service_app_create T delay_usec user_data sensor).run h).ret = some true ∧
          ((service_app_create T delay_usec user_data sensor).run h).heap user_data =
            some ⟨ad.getter_sw, sensor⟩ ∧
          ((service_app_create T delay_usec user_data sensor).run h).trace =
            [.sensor_data_new T sensor, .resource_write_led 5 1, .usleep delay_usec,
             .resource_write_led 5 0] ∧
          led_level 5 ((service_app_create T delay_usec user_data sensor).run h).trace =
            some 0) := by
  by_cases hs : sensor = NULL <;>
    simp [service_app_create, run_deref hd hh, run_assign _ hd hh, hs, led_writes, led_level]

/-- Witness of C9 on the heap `heap0`, `sensor_data_new` giving back the handle 8. -/
theorem service_app_create_result_witness :
    ((service_app_create 2 5000 100 8).run heap0).ret.isSome = true ∧
      (((service_app_create 2 5000 100 8).run heap0).ret = some false ↔ 8 = NULL) ∧
      (8 = NULL →
        ((service_app_create 2 5000 100 8).run heap0).trace = [.sensor_data_new 2 NULL] ∧
          led_writes ((service_app_create 2 5000 100 8).run heap0).trace = []) ∧
      (8 ≠ NULL →
        ((service_app_create 2 5000 100 8).run heap0).ret = some true ∧
          ((service_app_create 2 5000 100 8).run heap0).heap 100 =
            some ⟨(⟨0, 7⟩ : app_data).getter_sw, 8⟩ ∧
          ((service_app_create 2 5000 100 8).run heap0).trace =
            [.sensor_data_new 2 8, .resource_write_led 5 1, .usleep 5000,
             .resource_write_led 5 0] ∧
          led_level 5 ((service_app_create 2 5000 100 8).run heap0).trace = some 0) :=
  service_app_create_result 2 5000 heap0 100 ⟨0, 7⟩ 8 (by decide) (by decide)

/-! ## Repeated starts -/

theorem run_gathering_start_all (data : Ptr) (hd : data ≠ NULL) (timers : List Ptr) :
    ∀ (g s : Ptr) (h : Heap), h data = some ⟨g, s⟩ →
      ((gathering_start_all data timers).run h).ret = some () ∧
        ((gathering_start_all data timers).run h).trace =
          gathering_start_all_trace data g timers ∧
        ((gathering_start_all data timers).run h).heap data =
          some ⟨(g :: timers).getLast (List.cons_ne_nil g timers), s⟩ := by
  induction timers with
  | nil =>
    intro g s h hh
    simp [gathering_start_all, gathering_start_all_trace, hh]
  | cons t ts ih =>
    intro g s h hh
    have h1 := run_gathering_start t hd hh
    have h2 := ih t s (fun q => if q = data then some ⟨t, s⟩ else h q) (by simp)
    simp only [gathering_start_all, run_bind, h1]
    simp only [h2.1, h2.2.1, h2.2.2]
    simp [gathering_start_all_trace]

theorem timer_dels_all_trace (data : Ptr) (timers : List Ptr) :
    ∀ g : Ptr, timer_dels (gathering_start_all_trace data g timers) =
      ((g :: timers).dropLast).filter (fun t => t ≠ NULL) := by
  induction timers with
  | nil => intro g; simp [gathering_start_all_trace, timer_dels]
  | cons t ts ih =>
    intro g
    by_cases hg : g = NULL <;>
      simp [gathering_start_all_trace, timer_dels, ih t, hg, List.dropLast]

theorem live_all_trace (data : Ptr) (timers : List Ptr) :
    ∀ g : Ptr, (gathering_start_all_trace data g timers).foldl live_step (live_of g) =
      live_of ((g :: timers).getLast (List.cons_ne_nil g timers)) := by
  induction timers with
  | nil => intro g; simp [gathering_start_all_trace]
  | cons t ts ih =>
    intro g
    have hstep : (live_step (List.foldl live_step (live_of g)
        (if g ≠ NULL then [Effect.ecore_timer_del g] else []))
        (.ecore_timer_add SENSOR_GATHER_INTERVAL .__sw_to_value data t)) = live_of t := by
      by_cases hg : g = NULL <;> by_cases ht : t = NULL <;>
        simp [live_step, live_of, hg, ht]
    simp only [gathering_start_all_trace, List.foldl_append, List.foldl_cons, hstep, ih t]
    simp

theorem timer_adds_all_trace (data : Ptr) (timers : List Ptr) :
    ∀ g : Ptr, timer_adds (gathering_start_all_trace data g timers) =
      timers.filter (fun t => t ≠ NULL) := by
  induction timers with
  | nil => intro g; simp [gathering_start_all_trace, timer_adds]
  | cons t ts ih =>
    intro g
    by_cases hg : g = NULL <;> by_cases ht : t = NULL <;>
      simp [gathering_start_all_trace, timer_adds, ih, hg, ht]

/-- C10: from app data whose `getter_sw` is `NULL`, after one or more `gathering_start`
calls whose `ecore_timer_add` results are `NULL` or pairwise distinct handles, the run has
returned, the timers created are the non-null results, every timer created by an earlier
call has been passed to `ecore_timer_del` exactly once, no handle has been passed to it
twice, `getter_sw` holds the last result, and the live timers are none when `getter_sw`
is `NULL` and `getter_sw` alone otherwise. -/
theorem gathering_start_all_no_leak (h : Heap) (data s : Ptr) (timers : List Ptr)
    (hd : data ≠ NULL) (hh : h data = some ⟨NULL, s⟩) (hne : timers ≠ [])
    (hfresh : (timers.filter (fun t => t ≠ NULL)).Nodup) :
    ((gathering_start_all data timers).run h).ret = some () ∧
      timer_adds ((gathering_start_all data timers).run h).trace =
        timers.filter (fun t => t ≠ NULL) ∧
      (∀ t ∈ timers.dropLast, t ≠ NULL →
        (timer_dels ((gathering_start_all data timers).run h).trace).count t = 1) ∧
      (timer_dels ((gathering_start_all data timers).run h).trace).Nodup ∧
      ((gathering_start_all data timers).run h).heap data =
        some ⟨timers.getLast hne, s⟩ ∧
      live_timers ((gathering_start_all data timers).run h).trace =
        (if timers.getLast hne = NULL then [] else [timers.getLast hne]) := by
  obtain ⟨hret, htrace, hheap⟩ := run_gathering_start_all data hd timers NULL s h hh
  have hdels : timer_dels ((gathering_start_all data timers).run h).trace =
      (timers.dropLast).filter (fun t => t ≠ NULL) := by
    rw [htrace, timer_dels_all_trace, List.dropLast_cons_of_ne_nil hne]
    simp [NULL]
  have hnodup : ((timers.dropLast).filter (fun t => t ≠ NULL)).Nodup :=
    hfresh.sublist ((List.dropLast_sublist timers).filter _)
  have hlast : (NULL :: timers).getLast (List.cons_ne_nil NULL timers) = timers.getLast hne :=
    List.getLast_cons hne
  refine ⟨hret, ?_, ?_, ?_, ?_, ?_⟩
  · rw [htrace, timer_adds_all_trace]
  · intro t ht htn
    rw [hdels]
    exact List.count_eq_one_of_mem hnodup (List.mem_filter.mpr ⟨ht, by simpa using htn⟩)
  · rw [hdels]; exact hnodup
  · rw [hheap, hlast]
  · have hl := live_all_trace data timers NULL
    rw [hlast] at hl
    simpa [live_timers, htrace, live_of] using hl

/-- Witness of C10: three starts on `heap0`, the second `ecore_timer_add` failing. -/
theorem gathering_start_all_no_leak_witness :
    ((gathering_start_all 100 [9, 0, 11]).run heap0).ret = some () ∧
      timer_adds ((gathering_start_all 100 [9, 0, 11]).run heap0).trace =
        [9, 0, 11].filter (fun t => t ≠ NULL) ∧
      (∀ t ∈ [9, 0, 11].dropLast, t ≠ NULL →
        (timer_dels ((gathering_start_all 100 [9, 0, 11]).run heap0).trace).count t = 1) ∧
      (timer_dels ((gathering_start_all 100 [9, 0, 11]).run heap0).trace).Nodup ∧
      ((gathering_start_all 100 [9, 0, 11]).run heap0).heap 100 =
        some ⟨[9, 0, 11].getLast (by decide), 7⟩ ∧
      live_timers ((gathering_start_all 100 [9, 0, 11]).run heap0).trace =
        (if [9, 0, 11].getLast (by decide) = NULL then []
          else [[9, 0, 11].getLast (by decide)]) :=
  gathering_start_all_no_leak heap0 100 7 [9, 0, 11] (by decide) (by decide) (by decide)
    (by decide)

/-! ## A whole run -/

theorem quiet_pure {α : Type} (a : α) : Quiet (pure a : Prog α) := by
  intro h e he; simp at he

theorem quiet_emit (e : Effect) (he : is_st_things e = false) : Quiet (emit e) := by
  intro h e' he'
  simp at he'
  rw [he']; exact he

theorem quiet_deref (p : Ptr) : Quiet (deref p) := by
  intro h e he
  simp only [deref] at he
  split at he
  · simp at he
  · split at he <;> simp at he

theorem quiet_assign (p : Ptr) (v : app_data) : Quiet (assign p v) := by
  intro h e he
  simp only [assign] at he
  split at he
  · simp at he
  · split at he <;> simp at he

theorem quiet_release (p : Ptr) : Quiet (release p) := by
  intro h e he; simp at he

theorem quiet_alloc_zeroed (p : Ptr) : Quiet (alloc_zeroed p) := by
  intro h e he; simp at he

theorem quiet_bind {α β : Type} {m : Prog α} {f : α → Prog β} (hm : Quiet m)
    (hf : ∀ a, Quiet (f a)) : Quiet (m >>= f) := by
  intro h e he
  rw [run_bind] at he
  split at he
  · exact hm h e he
  · rename_i a _
    rcases List.mem_append.mp he with h1 | h2
    · exact hm h e h1
    · exact hf a _ e h2

theorem quiet_ite {α : Type} (c : Prop) [Decidable c] {m₁ m₂ : Prog α} (h₁ : Quiet m₁)
    (h₂ : Quiet m₂) : Quiet (if c then m₁ else m₂) := by
  split
  · exact h₁
  · exact h₂

theorem quiet_get_sw_led_writes (sw_value : Nat) : Quiet (__get_sw.led_writes sw_value) := by
  unfold __get_sw.led_writes
  repeat' first
    | exact quiet_emit _ rfl
    | apply quiet_ite
    | apply quiet_bind
    | intro _

theorem quiet_get_sw (data p : Ptr) (read : Int × Nat) : Quiet (__get_sw data p read) := by
  unfold __get_sw
  repeat' first
    | exact quiet_pure _
    | exact quiet_deref _
    | exact quiet_get_sw_led_writes _
    | exact quiet_emit _ rfl
    | apply quiet_ite
    | apply quiet_bind
    | intro _

theorem quiet_sw_to_value (data : Ptr) (read : Int × Nat) : Quiet (__sw_to_value data read) := by
  unfold __sw_to_value
  repeat' first
    | exact quiet_pure _
    | exact quiet_deref _
    | exact quiet_get_sw _ _ _
    | exact quiet_emit _ rfl
    | apply quiet_ite
    | apply quiet_bind
    | intro _

theorem quiet_gathering_stop (data : Ptr) : Quiet (gathering_stop data) := by
  unfold gathering_stop
  repeat' first
    | exact quiet_pure _
    | exact quiet_deref _
    | exact quiet_emit _ rfl
    | apply quiet_ite
    | apply quiet_bind
    | intro _

theorem quiet_gathering_start (data timer : Ptr) : Quiet (gathering_start data timer) := by
  unfold gathering_start
  repeat' first
    | exact quiet_pure _
    | exact quiet_deref _
    | exact quiet_assign _ _
    | exact quiet_gathering_stop _
    | exact quiet_emit _ rfl
    | apply quiet_ite
    | apply quiet_bind
    | intro _

theorem quiet_service_app_create (T : Int) (delay_usec : Nat) (user_data sensor : Ptr) :
    Quiet (service_app_create T delay_usec user_data sensor) := by
  unfold service_app_create
  repeat' first
    | exact quiet_pure _
    | exact quiet_deref _
    | exact quiet_assign _ _
    | exact quiet_emit _ rfl
    | apply quiet_ite
    | apply quiet_bind
    | intro _

theorem quiet_service_app_terminate (user_data : Ptr) :
    Quiet (service_app_terminate user_data) := by
  unfold service_app_terminate
  repeat' first
    | exact quiet_deref _
    | exact quiet_release _
    | exact quiet_gathering_stop _
    | exact quiet_emit _ rfl
    | apply quiet_bind
    | intro _

theorem quiet_host_call (T : Int) (delay_usec : Nat) (ad : Ptr) (c : HostCall) :
    Quiet (host_call T delay_usec ad c) := by
  cases c with
  | create sensor =>
    exact quiet_bind (quiet_service_app_create _ _ _ _) (fun _ => quiet_pure _)
  | app_control timer => exact quiet_gathering_start _ _
  | timer_tick read => exact quiet_bind (quiet_sw_to_value _ _) (fun _ => quiet_pure _)
  | terminate => exact quiet_service_app_terminate _

theorem quiet_service_app_main (T : Int) (delay_usec : Nat) (ad : Ptr) (status : Int)
    (host : List HostCall) : Quiet (service_app_main T delay_usec ad status host) := by
  induction host with
  | nil => exact quiet_pure _
  | cons c cs ih => exact quiet_bind (quiet_host_call _ _ _ _) (fun _ => ih)

/-- C7 as the code has it: in every run of the application, whatever the host makes of
the callbacks (create, app-control, timer tick, terminate, in any number and order) and
whatever the environment gives back, no call is made to any function of `st_things.h`. -/
theorem main_makes_no_st_things_call (T : Int) (delay_usec sizeof_app_data : Nat) (ad : Ptr)
    (status : Int) (host : List HostCall) (h : Heap) (fn : StThingsApi) :
    Effect.st_things fn ∉ ((main T delay_usec sizeof_app_data ad status host).run h).trace := by
  have hq : Quiet (main T delay_usec sizeof_app_data ad status host) := by
    unfold main
    repeat' first
      | exact quiet_pure _
      | exact quiet_alloc_zeroed _
      | exact quiet_service_app_main _ _ _ _ _
      | exact quiet_emit _ rfl
      | apply quiet_ite
      | apply quiet_bind
      | intro _
  intro hmem
  have := hq h _ hmem
  simp [is_st_things] at this

/-- C7, a run without any `st_things` call: `calloc` gives the address 100, the host
creates the application, sends one app-control, lets the timer tick twice (reading 1,
then 0) and terminates; the run returns the host's status and its trace, listed here in
full, has no call of a function of `st_things.h`. -/
theorem run_without_st_things :
    ((main 2 5000 16 100 0
        [.create 7, .app_control 9, .timer_tick (0, 1), .timer_tick (0, 0), .terminate]).run
      heap_empty).ret = some 0 ∧
    ((main 2 5000 16 100 0
        [.create 7, .app_control 9, .timer_tick (0, 1), .timer_tick (0, 0), .terminate]).run
      heap_empty).trace =
      [.calloc 1 16 100, .service_app_main,
       .sensor_data_new 2 7, .resource_write_led 5 1, .usleep 5000, .resource_write_led 5 0,
       .ecore_timer_add 1 .__sw_to_value 100 9,
       .resource_write_led 26 1, .resource_read_sw_sensor 20 0 1,
       .resource_write_led 5 1, .resource_write_led 26 1,
       .resource_write_led 26 1, .resource_read_sw_sensor 20 0 0,
       .resource_write_led 5 1, .resource_write_led 26 1,
       .resource_write_led 5 0, .resource_close_all, .ecore_timer_del 9,
       .sensor_data_free 7, .free 100] ∧
    ¬ ∃ e ∈ ((main 2 5000 16 100 0
        [.create 7, .app_control 9, .timer_tick (0, 1), .timer_tick (0, 0), .terminate]).run
      heap_empty).trace, is_st_things e = true := by
  refine ⟨by decide, by decide, ?_⟩
  have ht : ((main 2 5000 16 100 0
        [.create 7, .app_control 9, .timer_tick (0, 1), .timer_tick (0, 0), .terminate]).run
      heap_empty).trace.any is_st_things = false := by decide
  intro ⟨e, he, hs⟩
  have := List.any_eq_true.mpr ⟨e, he, hs⟩
  rw [ht] at this
  exact Bool.false_ne_true this

end Ledsw
